import Mathlib

/-!
Verification of the core of `vocab_dashboard_streamlit.py`
(repository Smilemaker999/vocab-dashboard).

Shallow embedding conventions:
* A pandas cell is modelled by `Cell`: `num q` is a cell that
  `pd.to_numeric(errors="coerce")` parses to the rational `q`
  (float64 values are modelled as exact rationals), `str s` is a
  non-numeric text cell (`to_numeric` turns it into NaN), and
  `missing` is a NaN / absent value.
* A raw CSV (the result of `pd.read_csv`) is a list of column names
  plus rows of cells, positionally aligned with the columns.
* The session state read by the Python functions
  (`st.session_state.mode`, `top_n`, `range_from`, `range_to`,
  `_rows_max`, `_last_filter_signature`) is passed explicitly.
* Python `int` is `Int`, float64 metric values are `ℚ`.
-/

/-- One pandas cell, classified by how `pd.to_numeric(errors="coerce")`
treats it: a numeric value, an unparseable text, or a missing value. -/
inductive Cell where
  | missing : Cell
  | num : ℚ → Cell
  | str : String → Cell
deriving DecidableEq

/-- The raw table produced by `pd.read_csv`: header names and rows of
cells aligned positionally with the header. -/
structure RawTable where
  cols : List String
  rows : List (List Cell)

/-- The fixed ordered list of the 13 metric columns
(`METRICS` at lines 14-18 of the source). -/
def METRICS : List String :=
  ["tf_passage", "tf_item", "tf_total", "df", "num_passages", "coverage",
   "idf", "tfidf", "dispersion", "general_score", "passage_frac",
   "passage_priority_score", "passage_df"]

/-- Python `str.strip()` (also pandas `.str.strip()`): remove leading
and trailing whitespace, realised directly on the character list so
that it evaluates by kernel reduction. -/
def pyStrip (s : String) : String :=
  String.mk (((s.data.dropWhile Char.isWhitespace).reverse.dropWhile Char.isWhitespace).reverse)

/-- `df.columns = [c.strip() for c in df.columns]` (line 136). -/
def trimCols (t : RawTable) : List String := t.cols.map (fun c => pyStrip c)

/-- Reading the cell of column `c` in one raw row: positional lookup of
the column name in the header; absent columns read as missing. -/
def cellAt (cols : List String) (row : List Cell) (c : String) : Cell :=
  match cols.findIdx? (fun x => x == c) with
  | some i => row.getD i Cell.missing
  | none => Cell.missing

/-- Python `str(cell)` / `.astype(str)` on a cell: NaN becomes the
literal text "nan"; the textual form of a numeric cell is abstracted by
`toString` (no claim depends on float formatting). -/
def cellToStr : Cell → String
  | Cell.missing => "nan"
  | Cell.num q => toString q
  | Cell.str s => s

/-- `coerce_num` (lines 131-132):
`pd.to_numeric(s, errors="coerce").fillna(0.0)` on one cell —
numeric cells pass through, everything else becomes 0.0. -/
def coerce_num : Cell → ℚ
  | Cell.num q => q
  | _ => 0

/-- Truncation toward zero, the semantics of `.astype(int)` on a
float64 value; `Int.tdiv` is T-division. -/
def ratTrunc (q : ℚ) : Int := Int.tdiv q.num (q.den : Int)

/-- `pd.to_numeric(errors="coerce").fillna(0).astype(int)` on one cell
(lines 155-156). -/
def coerceInt : Cell → Int
  | Cell.num q => ratTrunc q
  | _ => 0

/-- Resolution of the word column (lines 137-143): exact name "word",
else the first alias among Word, WORD, lemma, Lemma present in the
header. -/
def wordColOf (cols : List String) : Option String :=
  if "word" ∈ cols then some "word"
  else ["Word", "WORD", "lemma", "Lemma"].find? (fun a => decide (a ∈ cols))

/-- One loaded word record, the materialized row after
`load_and_prepare`.  `pos` keeps the raw cell: the loader never touches
that column (it is only meaningful when the frame has a pos column).
`metrics` gives the value of each of the 13 metric columns. -/
structure Record where
  word : String
  pos : Cell
  kb : Int
  cefr : Int
  cefrLevel : String
  metrics : String → ℚ

/-- The loaded frame: whether a `pos` column exists in the header
(the loader neither creates nor checks it), plus the record rows. -/
structure Frame where
  hasPos : Bool
  rows : List Record

/-- Materialization of one raw row by `load_and_prepare`
(lines 146-158): word string-converted and trimmed, curriculum level and
CEFR numeric coerced to int (CEFR defaulting to 0 when the column is
absent), CEFR label string-converted (defaulting to ""), and each of the
13 metric columns coerced with `coerce_num` when present, else 0.0. -/
def mkRecord (cols : List String) (w : String) (row : List Cell) : Record :=
  { word := pyStrip (cellToStr (cellAt cols row w))
    pos := cellAt cols row "pos"
    kb := coerceInt (cellAt cols row "词汇等级by课标")
    cefr := if "CEFR_numeric" ∈ cols then coerceInt (cellAt cols row "CEFR_numeric") else 0
    cefrLevel := if "CEFR_level" ∈ cols then cellToStr (cellAt cols row "CEFR_level") else ""
    metrics := fun m =>
      if m ∈ METRICS ∧ m ∈ cols then coerce_num (cellAt cols row m) else 0 }

/-- All rows materialized, then the empty-word rows dropped
(`df = df[df["word"] != ""]`, line 159). -/
def buildRows (cols : List String) (w : String) (rows : List (List Cell)) : List Record :=
  (rows.map (mkRecord cols w)).filter (fun r => decide (r.word ≠ ""))

/-- `load_and_prepare` (lines 134-160): trim the header, resolve the
word column (error if none), require the curriculum-level column
(error if absent), then materialize the rows.  The two error strings
are the Python `ValueError` messages. -/
def load_and_prepare (t : RawTable) : Except String Frame :=
  let cols := trimCols t
  match wordColOf cols with
  | none => Except.error "CSV 必须包含列：word（或 Lemma/Word）。"
  | some w =>
      if "词汇等级by课标" ∈ cols then
        Except.ok { hasPos := decide ("pos" ∈ cols), rows := buildRows cols w t.rows }
      else Except.error "CSV 必须包含列：词汇等级by课标。"

/-- The sidebar filter (lines 259-262):
`df[df["词汇等级by课标"].isin(kb_levels) & df["CEFR_numeric"].isin(cefr_levels)]`. -/
def applyFilter (rows : List Record) (kb cefr : List Int) : List Record :=
  rows.filter (fun r => decide (r.kb ∈ kb) && decide (r.cefr ∈ cefr))

/-- Generic insertion into a list relative to a boolean comparison:
the element lands in front of the first entry it compares `le` to.
Used to give executable semantics both to Python `sorted` and to the
stable `sort_values(kind="mergesort")` of pandas. -/
def insertSorted (le : α → α → Bool) (x : α) : List α → List α
  | [] => [x]
  | y :: ys => if le x y then x :: y :: ys else y :: insertSorted le x ys

/-- Stable sort by repeated insertion: extensionally the stable sort by
the comparison `le`, which is the semantics of pandas
`sort_values(kind="mergesort")` (ties keep the original order for both
sort directions) and of Python `sorted`. -/
def sortBy (le : α → α → Bool) : List α → List α
  | [] => []
  | x :: xs => insertSorted le x (sortBy le xs)

/-- Plain ascending comparison on integers (Python `sorted`). -/
def intLe (a b : Int) : Bool := decide (a ≤ b)

/-- The comparison realised by
`sort_values(metric, ascending=ascending, kind="mergesort")`:
sort key is the metric value, direction given by `ascending`. -/
def keyLe (asc : Bool) (m : String) (x y : Record) : Bool :=
  if asc then decide (x.metrics m ≤ y.metrics m)
  else decide (y.metrics m ≤ x.metrics m)

/-- The sorted rows of `build_base` (line 333). -/
def rankRows (rows : List Record) (m : String) (asc : Bool) : List Record :=
  sortBy (keyLe asc m) rows

/-- `build_base` (lines 327-333) on the rows of the filtered frame.
The source selects the columns
`["word","pos","词汇等级by课标","CEFR_numeric","CEFR_level",metric]`:
since `load_and_prepare` guarantees every one of them except `pos`,
`df_f[cols]` raises a pandas `KeyError` exactly when the frame has no
pos column — modelled by the error branch.  The re-coercions of lines
330-332 are identity on loaded records (their values are already
numeric/int/str), so only the stable sort remains.  The schema of the
resulting frame is `build_base_cols` below. -/
def build_base (hasPos : Bool) (rows : List Record) (metric : String) (asc : Bool) :
    Except String (List Record) :=
  if hasPos then Except.ok (rankRows rows metric asc)
  else Except.error "KeyError: pos"

/-- The columns of the frame produced by `build_base` (line 328). -/
def build_base_cols (metric : String) : List String :=
  ["word", "pos", "词汇等级by课标", "CEFR_numeric", "CEFR_level", metric]

/-- `pandas.DataFrame.head(n)`: first `n` rows when `n ≥ 0`, all but
the last `|n|` rows when `n < 0`. -/
def pyHead (n : Int) (l : List α) : List α :=
  if 0 ≤ n then l.take n.toNat else l.take (l.length - n.natAbs)

/-- `slice_df` (lines 335-343), with the session state passed
explicitly: `mode` is the literal mode string ("Top N" or "区间"),
`top_n`, `range_from`, `range_to` the stored control values.  Returns
the selected rows and the caption fragment built by the f-strings. -/
def slice_df (mode : String) (top_n range_from range_to : Int) (base : List Record) :
    List Record × String :=
  if mode = "Top N" then
    let N : Int := min top_n (base.length : Int)
    (pyHead N base, "Mode=Top N, N=" ++ toString N)
  else
    let total : Int := base.length
    let a := max 1 (min range_from total)
    let b := max 1 (min range_to total)
    let ab := if b < a then (b, a) else (a, b)
    ((base.take ab.2.toNat).drop (ab.1 - 1).toNat,
     "Mode=Range, From=" ++ toString ab.1 ++ ", To=" ++ toString ab.2)

/-- The state of the bound freezer: `st.session_state._rows_max` and
`st.session_state._last_filter_signature`. -/
structure FreezeState where
  rows_max : Int
  last : Option (List Int × List Int)
deriving DecidableEq

/-- Initial session values (lines 208-209): `_rows_max = 300`,
`_last_filter_signature = None`. -/
def initFreeze : FreezeState := { rows_max := 300, last := none }

/-- `sig = (tuple(sorted(kb_levels)), tuple(sorted(cefr_levels)))`
(line 268): the canonical order-independent filter signature. -/
def canonSig (kb cefr : List Int) : List Int × List Int :=
  (sortBy intLe kb, sortBy intLe cefr)

/-- One evaluation of the bound freezer (lines 259-272): the filtered
row count is recomputed from the loaded rows, and `_rows_max` /
`_last_filter_signature` update only when the signature changed. -/
def freezeStep (rows : List Record) (s : FreezeState) (kb cefr : List Int) : FreezeState :=
  let sig := canonSig kb cefr
  if s.last = some sig then s
  else { rows_max := max 10 ((applyFilter rows kb cefr).length : Int), last := some sig }

/-- A sequence of script evaluations, each with the loaded rows and the
two filter selections current at that evaluation. -/
def evalSeq (s : FreezeState) (evs : List (List Record × List Int × List Int)) : FreezeState :=
  evs.foldl (fun st e => freezeStep e.1 st e.2.1 e.2.2) s

/-- The fixed display column order of the preview/export table
(`cols_order`, lines 576-581). -/
def cols_order : List String :=
  ["word", "pos", "CEFR_level", "CEFR_numeric", "词汇等级by课标",
   "tf_passage", "tf_item", "tf_total", "df", "num_passages", "coverage",
   "idf", "tfidf", "dispersion", "general_score", "passage_frac",
   "passage_priority_score", "passage_df"]

/-- `cols_exist = [c for c in cols_order if c in show_df.columns]`
(line 582): the sliced frame keeps the columns of `build_base`, so its
column set is `build_base_cols metric`. -/
def cols_exist (metric : String) : List String :=
  cols_order.filter (fun c => decide (c ∈ build_base_cols metric))

/-! ## Concrete fixtures used in witnesses and counterexamples -/

/-- A simple concrete record with index `i` in its word. -/
def mkRow (i : Nat) : Record :=
  { word := "w" ++ toString i
    pos := Cell.str "n"
    kb := 0
    cefr := 0
    cefrLevel := ""
    metrics := fun _ => 0 }

/-- A concrete sorted set of 20 rows. -/
def base20 : List Record := (List.range 20).map mkRow

/-- A concrete sorted set of 50 rows. -/
def base50 : List Record := (List.range 50).map mkRow

/-- A raw table with the mandatory word and curriculum-level columns
but no pos column: the failing input of claim C2. -/
def tNoPos : RawTable :=
  { cols := ["word", "词汇等级by课标"]
    rows := [[Cell.str "apple", Cell.num 2]] }

/-- A raw table with the full header (all 18 display columns) and zero
data rows: the header-only input of claim C9. -/
def tHeaderOnly : RawTable :=
  { cols := cols_order
    rows := [] }

/-- A raw table whose metric column tf_passage holds one unparseable
cell and one numeric cell, and which lacks the other metric columns:
the witness input of claim C8. -/
def tMetrics : RawTable :=
  { cols := ["word", "词汇等级by课标", "tf_passage"]
    rows := [[Cell.str "hello", Cell.num 2, Cell.str "oops"],
             [Cell.str "world", Cell.num 3, Cell.num 5]] }

/-- A raw table with a missing (NaN) word cell in its second row: the
witness input of claim C10. -/
def tNanWord : RawTable :=
  { cols := ["word", "词汇等级by课标"]
    rows := [[Cell.str "apple", Cell.num 2],
             [Cell.missing, Cell.num 3]] }

/-! ## Generic lemmas about the stable insertion sort -/

theorem filter_insertSorted_pos (le : α → α → Bool) (p : α → Bool) (x : α)
    (hx : p x = true) (h : ∀ y, le x y = false → p y = false) :
    ∀ l : List α, (insertSorted le x l).filter p = x :: l.filter p
  | [] => by simp [insertSorted, hx]
  | y :: ys => by
      cases hxy : le x y with
      | true => simp [insertSorted, hxy, hx]
      | false =>
          have hy : p y = false := h y hxy
          simp [insertSorted, hxy, hy, filter_insertSorted_pos le p x hx h ys]

theorem filter_insertSorted_neg (le : α → α → Bool) (p : α → Bool) (x : α)
    (hx : p x = false) :
    ∀ l : List α, (insertSorted le x l).filter p = l.filter p
  | [] => by simp [insertSorted, hx]
  | y :: ys => by
      cases hxy : le x y with
      | true => simp [insertSorted, hxy, hx]
      | false =>
          cases hy : p y with
          | true => simp [insertSorted, hxy, hy, filter_insertSorted_neg le p x hx ys]
          | false => simp [insertSorted, hxy, hy, filter_insertSorted_neg le p x hx ys]

/-- Stability of `sortBy` phrased through filters: whenever failing the
comparison `le x y` forces `y` out of the predicate `p`, the records
satisfying `p` appear in the sorted output exactly in their input
order. -/
theorem sortBy_filter_eq (le : α → α → Bool) (p : α → Bool)
    (h : ∀ x y, p x = true → le x y = false → p y = false) :
    ∀ l : List α, (sortBy le l).filter p = l.filter p
  | [] => rfl
  | x :: xs => by
      cases hx : p x with
      | true =>
          rw [sortBy, filter_insertSorted_pos le p x hx (fun y => h x y hx),
            sortBy_filter_eq le p h xs, List.filter_cons_of_pos hx]
      | false =>
          rw [sortBy, filter_insertSorted_neg le p x hx,
            sortBy_filter_eq le p h xs, List.filter_cons_of_neg (by simp [hx])]

/-! ## Claims -/

/-- Claim C5: a record is in the output of the multi-select filter iff
its curriculum level is a member of the selected curriculum set and its
CEFR numeric value is a member of the selected CEFR set (and it was a
record of the input); consequently every record failing at least one of
the two membership predicates is excluded. -/
theorem C5_filter_membership (rows : List Record) (kb cefr : List Int) (r : Record) :
    r ∈ applyFilter rows kb cefr ↔ (r ∈ rows ∧ r.kb ∈ kb ∧ r.cefr ∈ cefr) := by
  simp [applyFilter, List.mem_filter, and_assoc]

/-- Claim C6: the sort of `build_base` is stable — for any metric value
`c`, the records whose active-metric value equals `c` appear in the
sorted output in exactly their order in the filtered input, for both
the ascending and the descending direction; in particular any two
records tied on the active metric keep their relative order. -/
theorem C6_sort_stable (rows : List Record) (m : String) (asc : Bool) (c : ℚ) :
    (rankRows rows m asc).filter (fun r => decide (r.metrics m = c)) =
      rows.filter (fun r => decide (r.metrics m = c)) := by
  refine sortBy_filter_eq (keyLe asc m) _ ?_ rows
  intro x y hx hle
  simp only [decide_eq_true_eq] at hx
  simp only [decide_eq_false_iff_not]
  intro hy
  have hxy : x.metrics m = y.metrics m := by rw [hx, hy]
  cases asc <;> simp [keyLe, hxy] at hle

/-- Claim C1 (counterexample): the claim says the exported selection
table carries all 13 metric columns, but `build_base` projects the
frame to the five identity columns plus only the active metric, so
`cols_exist` for the metric tf_passage is not the full display order. -/
theorem C1_counterexample : ¬ (cols_exist "tf_passage" = cols_order) := by decide

/-- Claim C1 (amended): for every metric, the exported selection table
has the columns word, pos, CEFR label, CEFR numeric, curriculum level
in the fixed display order, followed by only the active metric — not
all 13 metrics, since `build_base` keeps a single metric column. -/
theorem C1_export_columns (m : String) (hm : m ∈ METRICS) :
    cols_exist m = ["word", "pos", "CEFR_level", "CEFR_numeric", "词汇等级by课标", m] := by
  fin_cases hm <;> rfl

/-- Claim C1 witness: the amended statement evaluated at the metric
coverage. -/
theorem C1_export_columns_witness :
    "coverage" ∈ METRICS ∧
      cols_exist "coverage" =
        ["word", "pos", "CEFR_level", "CEFR_numeric", "词汇等级by课标", "coverage"] :=
  ⟨by decide, C1_export_columns "coverage" (by decide)⟩


/-- Claim C7: in Top-N mode, `slice_df` returns exactly the first
min(N, length) records from the head of the sort order, and the
description string reports that effective N. -/
theorem C7_topn (base : List Record) (n f t : Int) (hn : 0 ≤ n) :
    (slice_df "Top N" n f t base).1 = base.take (min n (base.length : Int)).toNat
    ∧ (slice_df "Top N" n f t base).1.length = min n.toNat base.length
    ∧ (slice_df "Top N" n f t base).2 =
        "Mode=Top N, N=" ++ toString (min n (base.length : Int)) := by
  have h0 : (0 : Int) ≤ min n (base.length : Int) :=
    le_min hn (Int.ofNat_nonneg _)
  have e : slice_df "Top N" n f t base =
      (pyHead (min n (base.length : Int)) base,
       "Mode=Top N, N=" ++ toString (min n (base.length : Int))) := rfl
  have hp : pyHead (min n (base.length : Int)) base =
      base.take (min n (base.length : Int)).toNat := by
    unfold pyHead
    rw [if_pos h0]
  rw [e]
  refine ⟨hp, ?_, rfl⟩
  simp only [hp, List.length_take]
  omega

/-- Claim C7 witness: N = 1000 on a 50-row sorted set returns exactly
50 rows and the description notes N = 50. -/
theorem C7_topn_witness :
    (0 : Int) ≤ 1000
    ∧ (slice_df "Top N" 1000 1 100 base50).1 =
        base50.take (min 1000 (base50.length : Int)).toNat
    ∧ (slice_df "Top N" 1000 1 100 base50).1.length = 50
    ∧ (slice_df "Top N" 1000 1 100 base50).2 = "Mode=Top N, N=50" := by
  have h := C7_topn base50 1000 1 100 (by decide)
  refine ⟨by decide, h.1, ?_, ?_⟩
  · rw [h.2.1]; decide
  · rw [h.2.2]; decide

/-- Claim C3 (counterexample): on a 20-row sorted set with from = 15
and to = 5, the Range slice has 11 rows (rows 5..15 inclusive), not the
9 rows stated by the claim. -/
theorem C3_counterexample :
    ¬ ((slice_df "区间" 50 15 5 base20).1.length = 9) := by decide

/-- Claim C3 (amended): in Range mode, `slice_df` clamps the 1-based
bounds independently to [1, total], swaps them if from exceeds to after
clamping, and returns the inclusive slice [lo, hi] of the sorted set —
hi - lo + 1 rows; in particular from = 15, to = 5 on 20 rows yields
rows 5..15 inclusive, which is 11 rows (not 9), and not an empty set. -/
theorem C3_range_slice (base : List Record) (f t a b lo hi : Int)
    (h : 1 ≤ base.length)
    (ha : a = max 1 (min f (base.length : Int)))
    (hb : b = max 1 (min t (base.length : Int)))
    (hlo : lo = min a b) (hhi : hi = max a b) :
    (slice_df "区间" 50 f t base).1 = (base.take hi.toNat).drop (lo - 1).toNat
    ∧ ((slice_df "区间" 50 f t base).1.length : Int) = hi - lo + 1
    ∧ (slice_df "区间" 50 f t base).2 =
        "Mode=Range, From=" ++ toString lo ++ ", To=" ++ toString hi := by
  have e : slice_df "区间" 50 f t base =
      (let a' := max 1 (min f (base.length : Int))
       let b' := max 1 (min t (base.length : Int))
       let ab := if b' < a' then (b', a') else (a', b')
       ((base.take ab.2.toNat).drop (ab.1 - 1).toNat,
        "Mode=Range, From=" ++ toString ab.1 ++ ", To=" ++ toString ab.2)) := rfl
  rw [e]
  have eab : (if max 1 (min t (base.length : Int)) < max 1 (min f (base.length : Int)) then
      (max 1 (min t (base.length : Int)), max 1 (min f (base.length : Int)))
      else (max 1 (min f (base.length : Int)), max 1 (min t (base.length : Int)))) = (lo, hi) := by
    by_cases hba : b < a
    · rw [if_pos (by omega), Prod.mk.injEq]
      exact ⟨by omega, by omega⟩
    · rw [if_neg (by omega), Prod.mk.injEq]
      exact ⟨by omega, by omega⟩
  simp only [eab]
  refine ⟨trivial, ?_, trivial⟩
  rw [List.length_drop, List.length_take]
  omega

/-- Claim C3 witness: the amended statement on the concrete 20-row set
with from = 15 and to = 5: clamped bounds 15 and 5, swapped to the
range [5, 15], 11 rows. -/
theorem C3_range_slice_witness :
    1 ≤ base20.length
    ∧ ((slice_df "区间" 50 15 5 base20).1 =
          (base20.take (15 : Int).toNat).drop ((5 : Int) - 1).toNat
        ∧ ((slice_df "区间" 50 15 5 base20).1.length : Int) = 15 - 5 + 1
        ∧ (slice_df "区间" 50 15 5 base20).2 =
            "Mode=Range, From=" ++ toString (5 : Int) ++ ", To=" ++ toString (15 : Int)) :=
  ⟨by decide,
   C3_range_slice base20 15 5 15 5 5 15 (by decide) (by decide) (by decide)
     (by decide) (by decide)⟩

/-- The freezer never drops `rows_max` below 10 in one step, given it
was at least 10 before. -/
theorem freezeStep_rows_max_ge (rows : List Record) (s : FreezeState) (kb cefr : List Int)
    (h : 10 ≤ s.rows_max) : 10 ≤ (freezeStep rows s kb cefr).rows_max := by
  unfold freezeStep
  by_cases hs : s.last = some (canonSig kb cefr)
  · rw [if_pos hs]; exact h
  · rw [if_neg hs]; exact le_max_left 10 _

/-- The freezer never drops `rows_max` below 10 along any evaluation
sequence, given it started at 10 or more. -/
theorem evalSeq_rows_max_ge (evs : List (List Record × List Int × List Int)) :
    ∀ s : FreezeState, 10 ≤ s.rows_max → 10 ≤ (evalSeq s evs).rows_max := by
  induction evs with
  | nil => intro s h; exact h
  | cons e es ih =>
      intro s h
      exact ih (freezeStep e.1 s e.2.1 e.2.2) (freezeStep_rows_max_ge e.1 s e.2.1 e.2.2 h)

/-- Claim C4: the frozen bound changes only when the canonical
order-independent filter signature differs from the last-seen one, in
which case it becomes max(10, filtered row count); across any sequence
of evaluations whose signature equals the stored one, `rows_max` is
constant; and starting from the initial session state it never falls
below 10. -/
theorem C4_freeze :
    (∀ (rows : List Record) (s : FreezeState) (kb cefr : List Int),
        s.last = some (canonSig kb cefr) → freezeStep rows s kb cefr = s)
    ∧ (∀ (rows : List Record) (s : FreezeState) (kb cefr : List Int),
        s.last ≠ some (canonSig kb cefr) →
          (freezeStep rows s kb cefr).rows_max =
              max 10 ((applyFilter rows kb cefr).length : Int)
          ∧ (freezeStep rows s kb cefr).last = some (canonSig kb cefr))
    ∧ (∀ (s : FreezeState) (evs : List (List Record × List Int × List Int)),
        (∀ e ∈ evs, s.last = some (canonSig e.2.1 e.2.2)) →
          (evalSeq s evs).rows_max = s.rows_max)
    ∧ (∀ evs : List (List Record × List Int × List Int),
        10 ≤ (evalSeq initFreeze evs).rows_max) := by
  refine ⟨?_, ?_, ?_, ?_⟩
  · intro rows s kb cefr hs
    unfold freezeStep
    rw [if_pos hs]
  · intro rows s kb cefr hs
    unfold freezeStep
    rw [if_neg hs]
    exact ⟨rfl, rfl⟩
  · intro s evs
    induction evs with
    | nil => intro _; rfl
    | cons e es ih =>
        intro hall
        have hstep : freezeStep e.1 s e.2.1 e.2.2 = s := by
          unfold freezeStep
          rw [if_pos (hall e (List.mem_cons_self e es))]
        have : evalSeq s (e :: es) = evalSeq s es := by
          show evalSeq (freezeStep e.1 s e.2.1 e.2.2) es = evalSeq s es
          rw [hstep]
        rw [this]
        exact ih (fun e' he' => hall e' (List.mem_cons_of_mem e he'))
  · intro evs
    exact evalSeq_rows_max_ge evs initFreeze (by norm_num [initFreeze])

/-- Claim C4 witness: a concrete evaluation with an unchanged signature
(the CEFR selection given in a different order) leaves the state
untouched, and the frozen bound stays at least 10 along a concrete
evaluation sequence from the initial state. -/
theorem C4_freeze_witness :
    ({ rows_max := 42, last := some ([2], [0, 1]) } : FreezeState).last =
        some (canonSig [2] [1, 0])
    ∧ freezeStep [] { rows_max := 42, last := some ([2], [0, 1]) } [2] [1, 0] =
        { rows_max := 42, last := some ([2], [0, 1]) }
    ∧ 10 ≤ (evalSeq initFreeze [([], [2], [3])]).rows_max :=
  ⟨by decide,
   C4_freeze.1 [] { rows_max := 42, last := some ([2], [0, 1]) } [2] [1, 0] (by decide),
   C4_freeze.2.2.2 [([], [2], [3])]⟩

/-- Claim C2 (code behaviour at the failing input): a table with the
mandatory word and curriculum-level columns but no pos column loads
successfully (one record), yet `build_base` — which selects the column
list containing "pos" — fails for every metric and direction, so the
rank/select pipeline raises instead of producing a result. -/
theorem C2_pos_missing :
    load_and_prepare tNoPos =
        Except.ok { hasPos := false,
                    rows := buildRows (trimCols tNoPos) "word" tNoPos.rows }
    ∧ (buildRows (trimCols tNoPos) "word" tNoPos.rows).length = 1
    ∧ ∀ (m : String) (asc : Bool),
        build_base false (buildRows (trimCols tNoPos) "word" tNoPos.rows) m asc =
          Except.error "KeyError: pos" :=
  ⟨rfl, by decide, fun _ _ => rfl⟩

/-- Claim C9: applying the selection to an empty sorted set yields an
empty selection for every mode and parameter values; and a header-only
table with zero data rows loads successfully, filters to the empty set,
ranks to the empty set, and always selects the empty set. -/
theorem C9_empty :
    (∀ (mode : String) (n f t : Int), (slice_df mode n f t []).1 = [])
    ∧ load_and_prepare tHeaderOnly = Except.ok { hasPos := true, rows := [] }
    ∧ (∀ kb cefr : List Int, applyFilter [] kb cefr = [])
    ∧ (∀ (m : String) (asc : Bool), build_base true [] m asc = Except.ok []) := by
  refine ⟨?_, rfl, fun kb cefr => rfl, fun m asc => rfl⟩
  intro mode n f t
  unfold slice_df
  split
  · show (pyHead (min n (([] : List Record).length : Int)) [], _).1 = []
    unfold pyHead
    split <;> simp
  · simp

/-- Each row of a loaded frame is the materialization of some raw input
row. -/
theorem mem_buildRows {cols : List String} {w : String} {rows : List (List Cell)}
    {r : Record} (hr : r ∈ buildRows cols w rows) :
    ∃ raw ∈ rows, r = mkRecord cols w raw := by
  obtain ⟨hmem, -⟩ := List.mem_filter.mp hr
  obtain ⟨raw, hraw, hr'⟩ := List.mem_map.mp hmem
  exact ⟨raw, hraw, hr'.symm⟩

/-- Claim C8: after a successful load, a metric column absent from the
(trimmed) input header gives value 0 on every record; a present metric
column gives on every record the `coerce_num` coercion of its raw cell;
and `coerce_num` maps every non-numeric (unparseable or missing) cell
to 0 — never leaving a value missing or invalid. -/
theorem C8_metric_columns (t : RawTable) (fr : Frame) (m : String)
    (hload : load_and_prepare t = Except.ok fr) (hm : m ∈ METRICS) :
    (m ∉ trimCols t → ∀ r ∈ fr.rows, r.metrics m = 0)
    ∧ (m ∈ trimCols t → ∀ r ∈ fr.rows,
        ∃ raw ∈ t.rows, r.metrics m = coerce_num (cellAt (trimCols t) raw m))
    ∧ (∀ c : Cell, (∀ q : ℚ, c ≠ Cell.num q) → coerce_num c = 0) := by
  simp only [load_and_prepare] at hload
  split at hload
  · exact absurd hload (by simp)
  · rename_i w hw
    split at hload
    case isFalse => exact absurd hload (by simp)
    case isTrue hkb =>
        have hfr := (Except.ok.inj hload).symm
        subst hfr
        refine ⟨?_, ?_, ?_⟩
        · intro hnot r hr
          obtain ⟨raw, hraw, rfl⟩ := mem_buildRows hr
          show (if m ∈ METRICS ∧ m ∈ trimCols t then
              coerce_num (cellAt (trimCols t) raw m) else 0) = 0
          rw [if_neg (fun hc => hnot hc.2)]
        · intro hin r hr
          obtain ⟨raw, hraw, rfl⟩ := mem_buildRows hr
          refine ⟨raw, hraw, ?_⟩
          show (if m ∈ METRICS ∧ m ∈ trimCols t then
              coerce_num (cellAt (trimCols t) raw m) else 0) =
            coerce_num (cellAt (trimCols t) raw m)
          rw [if_pos ⟨hm, hin⟩]
        · intro c hc
          cases c with
          | missing => rfl
          | num q => exact absurd rfl (hc q)
          | str s => rfl

/-- Claim C8 witness: on a concrete table whose only metric column is
tf_passage — holding one unparseable and one numeric cell — the load
succeeds, the theorem applies to the present column tf_passage, the
coerced tf_passage values are [0, 5], and the values of the absent
column tf_item are [0, 0]. -/
theorem C8_metric_columns_witness :
    load_and_prepare tMetrics =
        Except.ok { hasPos := false,
                    rows := buildRows (trimCols tMetrics) "word" tMetrics.rows }
    ∧ "tf_passage" ∈ METRICS
    ∧ (("tf_passage" ∉ trimCols tMetrics →
          ∀ r ∈ buildRows (trimCols tMetrics) "word" tMetrics.rows,
            r.metrics "tf_passage" = 0)
       ∧ ("tf_passage" ∈ trimCols tMetrics →
          ∀ r ∈ buildRows (trimCols tMetrics) "word" tMetrics.rows,
            ∃ raw ∈ tMetrics.rows,
              r.metrics "tf_passage" = coerce_num (cellAt (trimCols tMetrics) raw "tf_passage"))
       ∧ (∀ c : Cell, (∀ q : ℚ, c ≠ Cell.num q) → coerce_num c = 0))
    ∧ (buildRows (trimCols tMetrics) "word" tMetrics.rows).map
        (fun r => r.metrics "tf_passage") = [0, 5]
    ∧ (buildRows (trimCols tMetrics) "word" tMetrics.rows).map
        (fun r => r.metrics "tf_item") = [0, 0] :=
  ⟨rfl, by decide,
   C8_metric_columns tMetrics
     { hasPos := false, rows := buildRows (trimCols tMetrics) "word" tMetrics.rows }
     "tf_passage" rfl (by decide),
   by decide, by decide⟩

/-- Claim C10: a raw row whose resolved word cell is missing (NaN) is
not dropped by the empty-word filter — the string conversion turns the
missing value into the literal non-empty text "nan", so its record is
retained in the loaded rows with word equal to "nan". -/
theorem C10_nan_word (t : RawTable) (w : String) (raw : List Cell)
    (hw : wordColOf (trimCols t) = some w)
    (hkb : "词汇等级by课标" ∈ trimCols t)
    (hraw : raw ∈ t.rows)
    (hcell : cellAt (trimCols t) raw w = Cell.missing) :
    load_and_prepare t =
      Except.ok { hasPos := decide ("pos" ∈ trimCols t),
                  rows := buildRows (trimCols t) w t.rows }
    ∧ (mkRecord (trimCols t) w raw).word = "nan"
    ∧ mkRecord (trimCols t) w raw ∈ buildRows (trimCols t) w t.rows := by
  have hword : (mkRecord (trimCols t) w raw).word = "nan" := by
    show pyStrip (cellToStr (cellAt (trimCols t) raw w)) = "nan"
    rw [hcell]
    decide
  refine ⟨?_, hword, ?_⟩
  · simp only [load_and_prepare]
    rw [hw]
    simp only [if_pos hkb]
  · refine List.mem_filter.mpr ⟨List.mem_map_of_mem _ hraw, ?_⟩
    rw [hword]
    decide

/-- Claim C10 witness: a concrete table whose second row has a missing
word cell — the loaded record set keeps that row with word "nan". -/
theorem C10_nan_word_witness :
    wordColOf (trimCols tNanWord) = some "word"
    ∧ "词汇等级by课标" ∈ trimCols tNanWord
    ∧ [Cell.missing, Cell.num 3] ∈ tNanWord.rows
    ∧ cellAt (trimCols tNanWord) [Cell.missing, Cell.num 3] "word" = Cell.missing
    ∧ (load_and_prepare tNanWord =
        Except.ok { hasPos := decide ("pos" ∈ trimCols tNanWord),
                    rows := buildRows (trimCols tNanWord) "word" tNanWord.rows }
      ∧ (mkRecord (trimCols tNanWord) "word" [Cell.missing, Cell.num 3]).word = "nan"
      ∧ mkRecord (trimCols tNanWord) "word" [Cell.missing, Cell.num 3] ∈
          buildRows (trimCols tNanWord) "word" tNanWord.rows) :=
  ⟨by decide, by decide, by decide, by decide,
   C10_nan_word tNanWord "word" [Cell.missing, Cell.num 3]
     (by decide) (by decide) (by decide) (by decide)⟩
